import Mathlib

/-!
Shallow embedding of the JupyterHub core (handlers/base.py, apihandlers/auth.py):
the identity / session / spawn-lifecycle engine.  Side effects that external
parties observe (Store commits, spawner calls, proxy control-plane calls,
cookie operations, redirects) are recorded as an explicit event trace so that
ordering properties can be stated and settled.
-/

namespace JupyterHub

/-- One reachable HTTP endpoint (orm.Server).  `sid` is the primary key. -/
structure Server where
  sid : Nat
  ip : String
  port : Nat
  proto : String
  base_url : String
  cookie_name : String
  cookie_secret : String
deriving DecidableEq

/-- Modelled from the spec: `Server.host` (orm.py is not under src/) is the
scheme://ip:port origin of the server, used as the proxy routing target. -/
def Server.host (s : Server) : String :=
  s.proto ++ "://" ++ s.ip ++ ":" ++ toString s.port

/-- The Hub singleton owns one Server (orm.Hub). -/
structure Hub where
  server : Server
deriving DecidableEq

/-- The transient live Spawner handle attached to a running user.
`pollResult` is the exit status `poll()` reports: `none` means still running. -/
structure Spawner where
  api_token : String
  pollResult : Option Nat
deriving DecidableEq

/-- The central aggregate (orm.User): name, optional Server row, opaque
spawner state snapshot, and the transient Spawner reference. -/
structure User where
  name : String
  server : Option Server
  state : String
  spawner : Option Spawner
deriving DecidableEq

/-- A CookieToken or APIToken row: opaque token value plus owning user name. -/
structure TokenRow where
  token : String
  userName : String
deriving DecidableEq

/-- The transactional Store: users, server rows, both token tables, plus
fresh-id counters standing in for primary-key allocation and the Token Mint. -/
structure DB where
  users : List User
  servers : List Server
  api_tokens : List TokenRow
  cookie_tokens : List TokenRow
  nextId : Nat
  nextTokenId : Nat
deriving DecidableEq

/-- Modelled from the spec: the Token Mint (orm.User.new_api_token /
new_cookie_token, not under src/) produces fresh opaque token strings;
freshness is tracked by the mint counter. -/
def mintToken (n : Nat) : String :=
  "tok-" ++ toString n

/-- Modelled from the spec: `url_path_join` (jupyterhub.utils, not under src/)
joins URL path pieces with single slash separators. -/
def url_path_join (a b : String) : String :=
  (if a.endsWith "/" then a.dropRight 1 else a) ++
    (if b.startsWith "/" then b else "/" ++ b)

/-- Model of tornado.httputil.url_concat for a single query parameter:
appends key=value with the separator chosen by whether the URL already
carries a query string. -/
def url_concat (url key value : String) : String :=
  url ++ (if url.toList.contains '?' then "&" else "?") ++ key ++ "=" ++ value

/-- An incoming HTTP request as the handlers see it: optional Authorization
header, the cookie jar, and the request path. -/
structure Request where
  authorization : Option String
  cookies : List (String × String)
  path : String
deriving DecidableEq

/-- tornado RequestHandler.get_cookie: value of the named cookie, if present. -/
def Request.getCookie (req : Request) (name : String) : Option String :=
  (req.cookies.find? (fun p => p.1 == name)).map Prod.snd

/-- Observable side effects, in program order. -/
inductive Event where
  | commitServer (userName : String) (sid : Nat)
  | commitAPIToken (token userName : String)
  | commitCookieToken (token userName : String)
  | spawnerStart (userName : String)
  | spawnerStop (userName : String)
  | spawnerPoll (userName : String)
  | commitState (userName : String)
  | proxyRegister (base_url target : String)
  | proxyUnregister (base_url : String)
  | readinessProbe (ip : String) (port : Nat)
  | clearCookie (name path : String)
  | setCookie (name value path : String)
  | redirect (url : String) (status : Nat)
deriving DecidableEq

/-- Python's \s character class, as used by auth_header_pat. -/
def isPySpace (c : Char) : Bool :=
  c == ' ' || c == '\t' || c == '\n' || c == '\r' || c == '\x0b' || c == '\x0c'

/-- auth_header_pat = re.compile(r conforming to: caret token backslash-s plus
group of non-space chars, dollar): match the whole header, returning the
captured token.  The header value cannot contain a newline (tornado header
parsing), so the anchor is end-of-string. -/
def auth_header_match (s : String) : Option String :=
  if s.toList.take 5 = "token".toList then
    if (s.toList.drop 5).takeWhile isPySpace ≠ [] ∧
        (s.toList.drop 5).dropWhile isPySpace ≠ [] ∧
        ((s.toList.drop 5).dropWhile isPySpace).all (fun c => !isPySpace c) then
      some (String.mk ((s.toList.drop 5).dropWhile isPySpace))
    else none
  else none

/-- BaseHandler.get_current_user_token: resolve the bearer header against the
APIToken table; absent header behaves as the empty string. -/
def get_current_user_token (db : DB) (req : Request) : Option User :=
  match auth_header_match (req.authorization.getD "") with
  | none => none
  | some t =>
    match db.api_tokens.find? (fun r => r.token == t) with
    | none => none
    | some row => db.users.find? (fun u => u.name == row.userName)

/-- BaseHandler.get_current_user_cookie: resolve the Hub cookie against the
CookieToken table; an empty cookie value is falsy in the source and is treated
as absent; on a present-but-unknown value the cookie is cleared (scoped to the
Hub server's base_url). -/
def get_current_user_cookie (hub : Hub) (db : DB) (req : Request) :
    Option User × List Event :=
  match req.getCookie hub.server.cookie_name with
  | none => (none, [])
  | some v =>
    if v == "" then (none, [])
    else
      match db.cookie_tokens.find? (fun r => r.token == v) with
      | some row => (db.users.find? (fun u => u.name == row.userName), [])
      | none =>
        (none, [Event.clearCookie hub.server.cookie_name hub.server.base_url])

/-- BaseHandler.get_current_user: bearer header first, Hub cookie second. -/
def get_current_user (hub : Hub) (db : DB) (req : Request) :
    Option User × List Event :=
  match get_current_user_token db req with
  | some u => (some u, [])
  | none => get_current_user_cookie hub db req

/-- BaseHandler.clear_login_cookie: re-resolve the current user; if one is
resolved and has a server, clear the user-scoped cookie; always clear the
Hub-scoped cookie. -/
def clear_login_cookie (hub : Hub) (db : DB) (req : Request) : List Event :=
  let res := get_current_user hub db req
  let ev2 :=
    match res.1 with
    | some u =>
      match u.server with
      | some srv => [Event.clearCookie srv.cookie_name srv.base_url]
      | none => []
    | none => []
  res.2 ++ ev2 ++
    [Event.clearCookie hub.server.cookie_name hub.server.base_url]

/-- Second half of BaseHandler.set_login_cookie: when no valid Hub cookie is
presented, mint a CookieToken and set the Hub-scoped cookie.  `ev` carries the
events already emitted for the user-scoped cookie. -/
def set_hub_cookie (hub : Hub) (db : DB) (req : Request) (user : User)
    (ev : List Event) : DB × List Event :=
  let resc := get_current_user_cookie hub db req
  match resc.1 with
  | some _ => (db, ev ++ resc.2)
  | none =>
    let t := mintToken db.nextTokenId
    ({ db with
        cookie_tokens := db.cookie_tokens ++ [TokenRow.mk t user.name],
        nextTokenId := db.nextTokenId + 1 },
      ev ++ resc.2 ++
        [Event.commitCookieToken t user.name,
         Event.setCookie hub.server.cookie_name t hub.server.base_url])

/-- BaseHandler.set_login_cookie: if the user has a server, mint and set a
user-scoped cookie token; then, if no valid Hub cookie is presented, mint and
set a Hub-scoped cookie token. -/
def set_login_cookie (hub : Hub) (db : DB) (req : Request) (user : User) :
    DB × List Event :=
  match user.server with
  | some srv =>
    let t := mintToken db.nextTokenId
    set_hub_cookie hub
      { db with
          cookie_tokens := db.cookie_tokens ++ [TokenRow.mk t user.name],
          nextTokenId := db.nextTokenId + 1 } req user
      [Event.commitCookieToken t user.name,
       Event.setCookie srv.cookie_name t srv.base_url]
  | none => set_hub_cookie hub db req user []

/-- Settings and external behaviour a handler runs against: the Hub, the
handler base_url and login_url settings, and the behaviour of the next
spawner.start call (success flag, state snapshot, resolved listen endpoint). -/
structure HandlerEnv where
  hub : Hub
  base_url : String
  login_url : String
  startOk : Bool
  spawnState : String
  spawnIp : String
  spawnPort : Nat
deriving DecidableEq

/-- BaseHandler.notify_proxy: POST the route registration to the proxy control
plane, then wait_for_server on the user server's endpoint (the readiness
probe runs after the register POST has been issued). -/
def notify_proxy (user : User) : List Event :=
  match user.server with
  | some srv =>
    [Event.proxyRegister srv.base_url (Server.host srv),
     Event.readinessProbe srv.ip srv.port]
  | none => []

/-- The Server row spawn_single_user creates and commits: derived cookie_name
and base_url, inherited cookie_secret, orm defaults ip localhost /
unassigned port. -/
def newServer (env : HandlerEnv) (db : DB) (user : User) : Server :=
  { sid := db.nextId
    ip := "localhost"
    port := 0
    proto := "http"
    base_url := url_path_join (url_path_join env.base_url "user") user.name
    cookie_name := env.hub.server.cookie_name ++ "-" ++ user.name
    cookie_secret := env.hub.server.cookie_secret }

/-- The user's Server after a successful spawner.start has resolved the
listen endpoint. -/
def startedServer (env : HandlerEnv) (db : DB) (user : User) : Server :=
  { newServer env db user with ip := env.spawnIp, port := env.spawnPort }

/-- BaseHandler.spawn_single_user: create and commit the Server row, mint and
commit the APIToken, attach a Spawner, run spawner.start (its failure
propagates with no cleanup), persist user.state, then notify_proxy. -/
def spawn_single_user (env : HandlerEnv) (db : DB) (user : User) :
    Except (DB × User × List Event) (DB × User × List Event) :=
  let srv : Server := newServer env db user
  let user1 : User := { user with server := some srv }
  let db1 : DB := { db with servers := db.servers ++ [srv], nextId := db.nextId + 1 }
  let tok := mintToken db1.nextTokenId
  let db2 : DB :=
    { db1 with
        api_tokens := db1.api_tokens ++ [TokenRow.mk tok user.name],
        nextTokenId := db1.nextTokenId + 1 }
  let sp : Spawner := { api_token := tok, pollResult := none }
  let user2 : User := { user1 with spawner := some sp }
  let ev0 := [Event.commitServer user.name srv.sid,
              Event.commitAPIToken tok user.name,
              Event.spawnerStart user.name]
  if env.startOk then
    let srv2 : Server := startedServer env db user
    let user3 : User := { user2 with server := some srv2, state := env.spawnState }
    let db3 : DB :=
      { db2 with servers := db2.servers.map (fun r => if r.sid = srv.sid then srv2 else r) }
    Except.ok (db3, user3, ev0 ++ [Event.commitState user.name] ++ notify_proxy user3)
  else
    Except.error (db2, user2, ev0)

/-- BaseHandler.stop_single_user: return immediately when no spawner is
attached; otherwise poll, stop when still running, unregister the route, and
clear state/spawner/server.  (The source reads user.server.base_url for the
unregister URL; it is only reached with a server attached.) -/
def stop_single_user (db : DB) (user : User) : DB × User × List Event :=
  match user.spawner with
  | none => (db, user, [])
  | some sp =>
    let ev1 := [Event.spawnerPoll user.name]
    let ev2 := ev1 ++ (match sp.pollResult with
      | none => [Event.spawnerStop user.name]
      | some _ => [])
    let burl := (user.server.map Server.base_url).getD ""
    let user1 : User := { user with state := "", spawner := none, server := none }
    (db, user1, ev2 ++ [Event.proxyUnregister burl])

/-- UserSpawnHandler.get on /user/name: when the resolved user matches, spawn
if no spawner is attached or the attached spawner reports a dead process, then
refresh login cookies and redirect to the user URL; otherwise clear cookies
and redirect to login_url with the original path as the next parameter.
A spawn failure propagates out of the handler (error branch). -/
def user_spawn_get (env : HandlerEnv) (db : DB) (req : Request) (name : String) :
    Except (DB × List Event) (DB × Option User × List Event) :=
  let res := get_current_user env.hub db req
  match res.1 with
  | some user =>
    if user.name = name then
      match user.spawner with
      | some sp =>
        match sp.pollResult with
        | some _ =>
          match spawn_single_user env db user with
          | Except.error e =>
            Except.error (e.1, res.2 ++ [Event.spawnerPoll user.name] ++ e.2.2)
          | Except.ok r =>
            let r2 := set_login_cookie env.hub r.1 req r.2.1
            Except.ok (r2.1, some r.2.1,
              res.2 ++ [Event.spawnerPoll user.name] ++ r.2.2 ++ r2.2 ++
                [Event.redirect (url_path_join (url_path_join env.base_url "user") name) 302])
        | none =>
          let r2 := set_login_cookie env.hub db req user
          Except.ok (r2.1, some user,
            res.2 ++ [Event.spawnerPoll user.name] ++ r2.2 ++
              [Event.redirect (url_path_join (url_path_join env.base_url "user") name) 302])
      | none =>
        match spawn_single_user env db user with
        | Except.error e => Except.error (e.1, res.2 ++ e.2.2)
        | Except.ok r =>
          let r2 := set_login_cookie env.hub r.1 req r.2.1
          Except.ok (r2.1, some r.2.1,
            res.2 ++ r.2.2 ++ r2.2 ++
              [Event.redirect (url_path_join (url_path_join env.base_url "user") name) 302])
    else
      Except.ok (db, res.1,
        res.2 ++ clear_login_cookie env.hub db req ++
          [Event.redirect (url_concat env.login_url "next" req.path) 302])
  | none =>
    Except.ok (db, none,
      res.2 ++ clear_login_cookie env.hub db req ++
        [Event.redirect (url_concat env.login_url "next" req.path) 302])

/-- Outcome of an API handler: a JSON body carrying the owner name, or an
HTTPError status. -/
inductive ApiOutcome where
  | ok (user : String)
  | httpError (status : Nat)
deriving DecidableEq

/-- AuthorizationsAPIHandler.get body: look up a CookieToken by value; 404 on
miss, otherwise the owner name; the store is returned unchanged. -/
def authorizations_get (db : DB) (token : String) : DB × ApiOutcome :=
  match db.cookie_tokens.find? (fun r => r.token == token) with
  | none => (db, ApiOutcome.httpError 404)
  | some row => (db, ApiOutcome.ok row.userName)

/-- Modelled from the spec: the token_authenticated guard (jupyterhub.utils,
not under src/) rejects requests without a valid bearer API token before the
handler body runs. -/
def authorizations_endpoint (db : DB) (req : Request) (token : String) :
    DB × ApiOutcome :=
  match get_current_user_token db req with
  | none => (db, ApiOutcome.httpError 403)
  | some _ => authorizations_get db token

/-! ## Trace observation helpers -/

/-- Index of the first event satisfying a predicate. -/
def firstIdx (p : Event → Bool) : List Event → Option Nat
  | [] => none
  | e :: tr => cond (p e) (some 0) ((firstIdx p tr).map (· + 1))

/-- Both kinds occur and the first p-event strictly precedes the first
q-event. -/
def idxBefore (p q : Event → Bool) (tr : List Event) : Bool :=
  match firstIdx p tr, firstIdx q tr with
  | some i, some j => decide (i < j)
  | _, _ => false

/-- Number of events satisfying a predicate. -/
def countKind (p : Event → Bool) : List Event → Nat
  | [] => 0
  | e :: tr => cond (p e) (1 + countKind p tr) (countKind p tr)

def isCommitServer : Event → Bool
  | Event.commitServer _ _ => true
  | _ => false

def isCommitAPIToken : Event → Bool
  | Event.commitAPIToken _ _ => true
  | _ => false

def isStart : Event → Bool
  | Event.spawnerStart _ => true
  | _ => false

def isStop : Event → Bool
  | Event.spawnerStop _ => true
  | _ => false

def isCommitState : Event → Bool
  | Event.commitState _ => true
  | _ => false

def isRegister : Event → Bool
  | Event.proxyRegister _ _ => true
  | _ => false

def isProbe : Event → Bool
  | Event.readinessProbe _ _ => true
  | _ => false

/-- Any call into the Spawner (start, stop, or poll). -/
def isSpawnerCall : Event → Bool
  | Event.spawnerStart _ => true
  | Event.spawnerStop _ => true
  | Event.spawnerPoll _ => true
  | _ => false

/-- Cookie-jar side effects (set or clear). -/
def isCookieEvt : Event → Bool
  | Event.clearCookie _ _ => true
  | Event.setCookie _ _ _ => true
  | Event.commitCookieToken _ _ => true
  | _ => false

/-- Whether a spawn run succeeded. -/
def exceptOk {α β : Type} : Except α β → Bool
  | Except.ok _ => true
  | Except.error _ => false

/-- Event trace of a spawn run, successful or failed. -/
def spawnTrace : Except (DB × User × List Event) (DB × User × List Event) → List Event
  | Except.ok r => r.2.2
  | Except.error r => r.2.2

/-- Store state after a spawn run, successful or failed. -/
def spawnDB : Except (DB × User × List Event) (DB × User × List Event) → DB
  | Except.ok r => r.1
  | Except.error r => r.1

/-- User object after a spawn run, successful or failed. -/
def spawnUser : Except (DB × User × List Event) (DB × User × List Event) → User
  | Except.ok r => r.2.1
  | Except.error r => r.2.1

/-- The store a successful spawn leaves behind: the new Server row (updated
in place with the resolved endpoint at the state commit) and the minted
APIToken row are appended; the id counters advance. -/
def spawnedDB (env : HandlerEnv) (db : DB) (user : User) : DB :=
  { db with
      servers := (db.servers ++ [newServer env db user]).map
        (fun r => if r.sid = db.nextId then startedServer env db user else r),
      api_tokens := db.api_tokens ++ [TokenRow.mk (mintToken db.nextTokenId) user.name],
      nextId := db.nextId + 1,
      nextTokenId := db.nextTokenId + 1 }

/-- The user object a successful spawn leaves behind. -/
def spawnedUser (env : HandlerEnv) (db : DB) (user : User) : User :=
  { user with
      server := some (startedServer env db user),
      state := env.spawnState,
      spawner := some { api_token := mintToken db.nextTokenId, pollResult := none } }

/-- The event trace of a successful spawn. -/
def spawnedTrace (env : HandlerEnv) (db : DB) (user : User) : List Event :=
  [Event.commitServer user.name db.nextId,
   Event.commitAPIToken (mintToken db.nextTokenId) user.name,
   Event.spawnerStart user.name,
   Event.commitState user.name,
   Event.proxyRegister (startedServer env db user).base_url
     (Server.host (startedServer env db user)),
   Event.readinessProbe env.spawnIp env.spawnPort]

/-! ## Concrete sample deployment used by witnesses and counterexamples -/

/-- A sample Hub. -/
def hubA : Hub :=
  { server :=
    { sid := 100, ip := "1.2.3.4", port := 8081, proto := "http",
      base_url := "/hub/", cookie_name := "jhub", cookie_secret := "sec" } }

/-- Alice's stale server row. -/
def aliceSrv : Server :=
  { sid := 0, ip := "localhost", port := 9000, proto := "http",
    base_url := "/user/alice", cookie_name := "jhub-alice", cookie_secret := "sec" }

/-- Alice's live spawner whose process has died with exit status 1. -/
def aliceSp : Spawner := { api_token := "at1", pollResult := some 1 }

/-- Alice, nominally running. -/
def aliceU : User :=
  { name := "alice", server := some aliceSrv, state := "pid 7", spawner := some aliceSp }

/-- A sample store holding alice, her server row, one APIToken and one
CookieToken. -/
def dbA : DB :=
  { users := [aliceU], servers := [aliceSrv],
    api_tokens := [TokenRow.mk "at1" "alice"],
    cookie_tokens := [TokenRow.mk "ct1" "alice"],
    nextId := 5, nextTokenId := 7 }

/-- A user with no spawn attached. -/
def bobU : User := { name := "bob", server := none, state := "", spawner := none }

/-- A store holding only bob, with empty server and token tables. -/
def dbB : DB :=
  { users := [bobU], servers := [], api_tokens := [], cookie_tokens := [],
    nextId := 0, nextTokenId := 0 }

/-- Handler settings whose next spawner.start succeeds. -/
def envA : HandlerEnv :=
  { hub := hubA, base_url := "/", login_url := "/hub/login", startOk := true,
    spawnState := "pid 42", spawnIp := "127.0.0.1", spawnPort := 5555 }

/-- Handler settings whose next spawner.start fails. -/
def envFail : HandlerEnv :=
  { hub := hubA, base_url := "/", login_url := "/hub/login", startOk := false,
    spawnState := "pid 42", spawnIp := "127.0.0.1", spawnPort := 5555 }

/-- A request carrying alice's bearer API token. -/
def reqBearer : Request :=
  { authorization := some "token at1", cookies := [], path := "/user/alice" }

/-- A request carrying alice's valid Hub cookie. -/
def reqCookie : Request :=
  { authorization := none, cookies := [("jhub", "ct1")], path := "/user/alice" }

/-- A request carrying a Hub cookie that matches no stored CookieToken. -/
def reqBadCookie : Request :=
  { authorization := none, cookies := [("jhub", "zzz")], path := "/user/alice" }

/-- A request with no credentials at all. -/
def reqAnon : Request :=
  { authorization := none, cookies := [], path := "/user/alice" }

/-- A request with a malformed Authorization header and a valid Hub cookie. -/
def reqBadHeader : Request :=
  { authorization := some "Bearer at1", cookies := [("jhub", "ct1")], path := "/user/alice" }

/-! ## General lemmas -/

theorem countKind_append (p : Event → Bool) (a b : List Event) :
    countKind p (a ++ b) = countKind p a + countKind p b := by
  induction a with
  | nil => simp [countKind]
  | cons e tr ih =>
    cases hpe : p e <;> simp [countKind, hpe, ih, Nat.add_assoc]

theorem countKind_eq_zero (p : Event → Bool) (l : List Event)
    (h : ∀ e ∈ l, p e = false) : countKind p l = 0 := by
  induction l with
  | nil => rfl
  | cons e tr ih =>
    simp [countKind, h e (List.mem_cons_self e tr),
      ih (fun x hx => h x (List.mem_cons_of_mem e hx))]

/-- The normal form of a successful spawn run. -/
theorem spawn_single_user_ok (env : HandlerEnv) (db : DB) (user : User)
    (h : env.startOk = true) :
    spawn_single_user env db user = Except.ok
      (spawnedDB env db user, spawnedUser env db user, spawnedTrace env db user) := by
  simp [spawn_single_user, h, notify_proxy, newServer, startedServer,
    spawnedDB, spawnedUser, spawnedTrace]

/-- The normal form of a failed spawn run: the committed rows and the attached
spawner survive, and the trace ends at spawner.start. -/
theorem spawn_single_user_err (env : HandlerEnv) (db : DB) (user : User)
    (h : env.startOk = false) :
    spawn_single_user env db user = Except.error
      ({ db with
          servers := db.servers ++ [newServer env db user],
          api_tokens := db.api_tokens ++ [TokenRow.mk (mintToken db.nextTokenId) user.name],
          nextId := db.nextId + 1,
          nextTokenId := db.nextTokenId + 1 },
        { user with
            server := some (newServer env db user),
            spawner := some { api_token := mintToken db.nextTokenId, pollResult := none } },
        [Event.commitServer user.name db.nextId,
         Event.commitAPIToken (mintToken db.nextTokenId) user.name,
         Event.spawnerStart user.name]) := by
  simp [spawn_single_user, h, newServer]

theorem cookie_not_spawner (e : Event) (h : isCookieEvt e = true) :
    isSpawnerCall e = false := by
  cases e <;> simp_all [isCookieEvt, isSpawnerCall]

theorem cookie_not_start (e : Event) (h : isCookieEvt e = true) :
    isStart e = false := by
  cases e <;> simp_all [isCookieEvt, isStart]

theorem countKind_zero_of_cookie (p : Event → Bool)
    (hp : ∀ e, isCookieEvt e = true → p e = false) (l : List Event)
    (hl : ∀ e ∈ l, isCookieEvt e = true) : countKind p l = 0 :=
  countKind_eq_zero p l (fun e he => hp e (hl e he))

theorem gcuc_cookie_only (hub : Hub) (db : DB) (req : Request) :
    ∀ e ∈ (get_current_user_cookie hub db req).2, isCookieEvt e = true := by
  intro e he
  unfold get_current_user_cookie at he
  split at he
  · simp at he
  · split at he
    · simp at he
    · split at he
      · simp at he
      · simp at he
        subst he
        rfl

theorem gcu_cookie_only (hub : Hub) (db : DB) (req : Request) :
    ∀ e ∈ (get_current_user hub db req).2, isCookieEvt e = true := by
  intro e he
  unfold get_current_user at he
  rcases ht : get_current_user_token db req with _ | u
  · rw [ht] at he
    exact gcuc_cookie_only hub db req e he
  · rw [ht] at he
    simp at he

theorem set_hub_cookie_cookie_only (hub : Hub) (db : DB) (req : Request)
    (user : User) (ev : List Event)
    (hev : ∀ e ∈ ev, isCookieEvt e = true) :
    ∀ e ∈ (set_hub_cookie hub db req user ev).2, isCookieEvt e = true := by
  intro e he
  simp only [set_hub_cookie] at he
  rcases hr : (get_current_user_cookie hub db req).1 with _ | u
  · rw [hr] at he
    simp only at he
    rcases List.mem_append.mp he with h1 | h2
    · rcases List.mem_append.mp h1 with h3 | h4
      · exact hev e h3
      · exact gcuc_cookie_only hub db req e h4
    · simp at h2
      rcases h2 with h | h <;> rw [h] <;> rfl
  · rw [hr] at he
    simp only at he
    rcases List.mem_append.mp he with h1 | h2
    · exact hev e h1
    · exact gcuc_cookie_only hub db req e h2

theorem slc_cookie_only (hub : Hub) (db : DB) (req : Request) (user : User) :
    ∀ e ∈ (set_login_cookie hub db req user).2, isCookieEvt e = true := by
  intro e he
  unfold set_login_cookie at he
  rcases hs : user.server with _ | srv
  · rw [hs] at he
    exact set_hub_cookie_cookie_only hub db req user [] (by simp) e he
  · rw [hs] at he
    refine set_hub_cookie_cookie_only hub _ req user _ ?_ e he
    intro x hx
    simp at hx
    rcases hx with h | h <;> rw [h] <;> rfl

theorem set_hub_cookie_api_tokens (hub : Hub) (db : DB) (req : Request)
    (user : User) (ev : List Event) :
    (set_hub_cookie hub db req user ev).1.api_tokens = db.api_tokens := by
  simp only [set_hub_cookie]
  split <;> rfl

theorem set_hub_cookie_servers (hub : Hub) (db : DB) (req : Request)
    (user : User) (ev : List Event) :
    (set_hub_cookie hub db req user ev).1.servers = db.servers := by
  simp only [set_hub_cookie]
  split <;> rfl

theorem slc_api_tokens (hub : Hub) (db : DB) (req : Request) (user : User) :
    (set_login_cookie hub db req user).1.api_tokens = db.api_tokens := by
  unfold set_login_cookie
  split <;> simp [set_hub_cookie_api_tokens]

theorem slc_servers (hub : Hub) (db : DB) (req : Request) (user : User) :
    (set_login_cookie hub db req user).1.servers = db.servers := by
  unfold set_login_cookie
  split <;> simp [set_hub_cookie_servers]

theorem clc_cookie_only (hub : Hub) (db : DB) (req : Request) :
    ∀ e ∈ clear_login_cookie hub db req, isCookieEvt e = true := by
  intro e he
  simp only [clear_login_cookie] at he
  rcases List.mem_append.mp he with h1 | h2
  · rcases List.mem_append.mp h1 with h3 | h4
    · exact gcu_cookie_only hub db req e h3
    · split at h4
      · split at h4
        · simp at h4
          subst h4
          rfl
        · simp at h4
      · simp at h4
  · simp at h2
    subst h2
    rfl

theorem clc_mem_hub_clear (hub : Hub) (db : DB) (req : Request) :
    Event.clearCookie hub.server.cookie_name hub.server.base_url ∈
      clear_login_cookie hub db req := by
  simp only [clear_login_cookie]
  simp

theorem takeWhile_append_all (p : Char → Bool) (l1 l2 : List Char)
    (h : ∀ c ∈ l1, p c = true) :
    (l1 ++ l2).takeWhile p = l1 ++ l2.takeWhile p := by
  induction l1 with
  | nil => simp
  | cons a l ih =>
    simp [List.takeWhile_cons, h a (List.mem_cons_self a l),
      ih (fun c hc => h c (List.mem_cons_of_mem a hc))]

theorem dropWhile_append_all (p : Char → Bool) (l1 l2 : List Char)
    (h : ∀ c ∈ l1, p c = true) :
    (l1 ++ l2).dropWhile p = l2.dropWhile p := by
  induction l1 with
  | nil => simp
  | cons a l ih =>
    simp [List.dropWhile_cons, h a (List.mem_cons_self a l),
      ih (fun c hc => h c (List.mem_cons_of_mem a hc))]

/-- A successful auth_header_pat match decomposes the header into the literal
word token, a nonempty run of whitespace, and a nonempty whitespace-free
token. -/
theorem auth_header_match_shape (s t : String)
    (h : auth_header_match s = some t) :
    ∃ ws tk : List Char, s.toList = "token".toList ++ ws ++ tk ∧
      ws ≠ [] ∧ (∀ c ∈ ws, isPySpace c = true) ∧
      tk ≠ [] ∧ (∀ c ∈ tk, isPySpace c = false) := by
  unfold auth_header_match at h
  by_cases h5 : s.toList.take 5 = "token".toList
  · rw [if_pos h5] at h
    by_cases hc : (s.toList.drop 5).takeWhile isPySpace ≠ [] ∧
        (s.toList.drop 5).dropWhile isPySpace ≠ [] ∧
        ((s.toList.drop 5).dropWhile isPySpace).all (fun c => !isPySpace c)
    · refine ⟨(s.toList.drop 5).takeWhile isPySpace,
        (s.toList.drop 5).dropWhile isPySpace, ?_, hc.1, ?_, hc.2.1, ?_⟩
      · rw [List.append_assoc, List.takeWhile_append_dropWhile, ← h5,
          List.take_append_drop]
      · intro c hcmem
        exact List.mem_takeWhile_imp hcmem
      · intro c hcmem
        have := List.all_eq_true.mp hc.2.2 c hcmem
        simpa using this
    · rw [if_neg hc] at h
      exact absurd h (by simp)
  · rw [if_neg h5] at h
    exact absurd h (by simp)

/-- Conversely, a header of that shape always matches auth_header_pat. -/
theorem auth_header_match_of_shape (s : String) (ws tk : List Char)
    (hdec : s.toList = "token".toList ++ ws ++ tk)
    (hws : ws ≠ []) (hwsp : ∀ c ∈ ws, isPySpace c = true)
    (htk : tk ≠ []) (htkp : ∀ c ∈ tk, isPySpace c = false) :
    auth_header_match s = some (String.mk tk) := by
  have hlen : ("token".toList : List Char).length = 5 := by decide
  have h5 : s.toList.take 5 = "token".toList := by
    rw [hdec, List.append_assoc]
    exact List.take_left' hlen
  have hdrop : s.toList.drop 5 = ws ++ tk := by
    rw [hdec, List.append_assoc]
    exact List.drop_left' hlen
  have htkhead : ∃ c r, tk = c :: r := by
    cases tk with
    | nil => exact absurd rfl htk
    | cons c r => exact ⟨c, r, rfl⟩
  obtain ⟨c, r, hcr⟩ := htkhead
  have hchead : isPySpace c = false := htkp c (hcr ▸ List.mem_cons_self c r)
  have htw : (s.toList.drop 5).takeWhile isPySpace = ws := by
    rw [hdrop, takeWhile_append_all isPySpace ws tk hwsp, hcr,
      List.takeWhile_cons, hchead]
    simp
  have hdw : (s.toList.drop 5).dropWhile isPySpace = tk := by
    rw [hdrop, dropWhile_append_all isPySpace ws tk hwsp, hcr,
      List.dropWhile_cons]
    simp [hchead]
  unfold auth_header_match
  rw [if_pos h5, htw, hdw,
    if_pos ⟨hws, htk, List.all_eq_true.mpr (fun x hx => by simp [htkp x hx])⟩]

/-! ## Claim theorems -/

/-- C9: stop(user) is idempotent when no spawn is live: with no spawner
reference, stop_single_user returns immediately with no spawner, proxy, or
cookie effects, and the user object and every stored row are unchanged. -/
theorem stop_noop_when_spawner_absent (db : DB) (user : User)
    (h : user.spawner = none) :
    stop_single_user db user = (db, user, []) := by
  simp [stop_single_user, h]

theorem stop_noop_when_spawner_absent_witness :
    bobU.spawner = none ∧ stop_single_user dbB bobU = (dbB, bobU, []) :=
  ⟨rfl, stop_noop_when_spawner_absent dbB bobU rfl⟩

/-- C2: in every execution of spawn(user), if a proxy register call appears in
the trace then the Store commit of the Server row and the commit of the minted
APIToken both strictly precede it. -/
theorem register_preceded_by_commit (env : HandlerEnv) (db : DB) (user : User)
    (j : Nat)
    (hreg : firstIdx isRegister (spawnTrace (spawn_single_user env db user)) = some j) :
    (∃ i, firstIdx isCommitServer (spawnTrace (spawn_single_user env db user)) = some i ∧
      i < j) ∧
    (∃ i, firstIdx isCommitAPIToken (spawnTrace (spawn_single_user env db user)) = some i ∧
      i < j) := by
  by_cases h : env.startOk = true
  · rw [spawn_single_user_ok env db user h] at hreg ⊢
    simp [spawnTrace, spawnedTrace, firstIdx, isRegister, isCommitServer,
      isCommitAPIToken] at hreg ⊢
    omega
  · rw [spawn_single_user_err env db user (by simpa using h)] at hreg
    simp [spawnTrace, firstIdx, isRegister] at hreg

theorem register_preceded_by_commit_witness :
    (∃ i, firstIdx isCommitServer (spawnTrace (spawn_single_user envA dbB bobU)) = some i ∧
      i < 4) ∧
    (∃ i, firstIdx isCommitAPIToken (spawnTrace (spawn_single_user envA dbB bobU)) = some i ∧
      i < 4) :=
  register_preceded_by_commit envA dbB bobU 4 (by decide)

/-- C1 as stated is false on the code: in a successful spawn the readiness
probe does not precede the state commit, and does not precede the register
call either, because notify_proxy issues the register POST first and runs
wait_for_server afterwards. -/
theorem spawn_order_counterexample :
    exceptOk (spawn_single_user envA dbB bobU) = true ∧
    idxBefore isProbe isCommitState (spawnTrace (spawn_single_user envA dbB bobU)) = false ∧
    idxBefore isProbe isRegister (spawnTrace (spawn_single_user envA dbB bobU)) = false ∧
    idxBefore isCommitState isRegister (spawnTrace (spawn_single_user envA dbB bobU)) = true := by
  decide

/-- C1 amended: for every successful spawn(user) the observable order of steps
is spawner.start, persist state, proxy register, readiness probe — the probe
is issued inside notify_proxy after the register POST, not before the state
commit. -/
theorem spawn_observable_order (env : HandlerEnv) (db : DB) (user : User)
    (h : env.startOk = true) :
    exceptOk (spawn_single_user env db user) = true ∧
    firstIdx isStart (spawnTrace (spawn_single_user env db user)) = some 2 ∧
    firstIdx isCommitState (spawnTrace (spawn_single_user env db user)) = some 3 ∧
    firstIdx isRegister (spawnTrace (spawn_single_user env db user)) = some 4 ∧
    firstIdx isProbe (spawnTrace (spawn_single_user env db user)) = some 5 := by
  rw [spawn_single_user_ok env db user h]
  simp [spawnTrace, spawnedTrace, exceptOk, firstIdx, isStart, isCommitState,
    isRegister, isProbe]

theorem spawn_observable_order_witness :
    exceptOk (spawn_single_user envA dbB bobU) = true ∧
    firstIdx isStart (spawnTrace (spawn_single_user envA dbB bobU)) = some 2 ∧
    firstIdx isCommitState (spawnTrace (spawn_single_user envA dbB bobU)) = some 3 ∧
    firstIdx isRegister (spawnTrace (spawn_single_user envA dbB bobU)) = some 4 ∧
    firstIdx isProbe (spawnTrace (spawn_single_user envA dbB bobU)) = some 5 :=
  spawn_observable_order envA dbB bobU rfl

/-- C3 as stated is false on the code: when spawner.start fails, no revert
happens — spawner.stop is never attempted, the newly committed Server row and
APIToken are not dropped, and the user keeps the attached spawner. -/
theorem spawn_failure_counterexample :
    exceptOk (spawn_single_user envFail dbB bobU) = false ∧
    firstIdx isStop (spawnTrace (spawn_single_user envFail dbB bobU)) = none ∧
    (spawnDB (spawn_single_user envFail dbB bobU)).servers.length = 1 ∧
    (spawnDB (spawn_single_user envFail dbB bobU)).api_tokens.length = 1 ∧
    (spawnUser (spawn_single_user envFail dbB bobU)).spawner.isSome = true ∧
    (spawnUser (spawn_single_user envFail dbB bobU)).server.isSome = true := by
  decide

/-- C3 amended: if spawner.start raises during spawn(user), the failure
propagates to the caller, but nothing is reverted: spawner.stop is not
attempted, the committed Server row and APIToken remain in the Store, and the
user keeps both the new server and the attached spawner (a half-spawned state
survives).  The readiness probe and proxy registration cannot fail the spawn,
as they run after the un-awaited register POST. -/
theorem spawn_failure_leaves_state (env : HandlerEnv) (db : DB) (user : User)
    (h : env.startOk = false) :
    ∃ db1 u1 ev, spawn_single_user env db user = Except.error (db1, u1, ev) ∧
      db1.servers = db.servers ++ [newServer env db user] ∧
      db1.api_tokens = db.api_tokens ++ [TokenRow.mk (mintToken db.nextTokenId) user.name] ∧
      u1.server = some (newServer env db user) ∧
      (∃ sp, u1.spawner = some sp ∧ sp.api_token = mintToken db.nextTokenId) ∧
      firstIdx isStop ev = none ∧
      firstIdx isStart ev = some 2 := by
  rw [spawn_single_user_err env db user h]
  exact ⟨_, _, _, rfl, rfl, rfl, rfl, ⟨_, rfl, rfl⟩, rfl, rfl⟩

/-- C4: user resolution follows the fixed order: a well-formed bearer header
whose token matches a stored APIToken binds the request to that token's owner
whatever the cookie jar holds; when the bearer path yields nothing, resolution
is exactly the Hub-cookie resolution; when both yield nothing the request is
anonymous. -/
theorem resolution_order (hub : Hub) (db : DB) (req : Request) :
    (∀ t row owner, auth_header_match (req.authorization.getD "") = some t →
      db.api_tokens.find? (fun r => r.token == t) = some row →
      db.users.find? (fun u => u.name == row.userName) = some owner →
      ∀ cs : List (String × String),
        get_current_user hub db { req with cookies := cs } = (some owner, [])) ∧
    (get_current_user_token db req = none →
      get_current_user hub db req = get_current_user_cookie hub db req) ∧
    (get_current_user_token db req = none →
      (get_current_user_cookie hub db req).1 = none →
      (get_current_user hub db req).1 = none) := by
  refine ⟨?_, ?_, ?_⟩
  · intro t row owner ht hrow howner cs
    have htok : get_current_user_token db { req with cookies := cs } = some owner := by
      simp [get_current_user_token, ht, hrow, howner]
    simp [get_current_user, htok]
  · intro h
    simp [get_current_user, h]
  · intro h h2
    simp [get_current_user, h, h2]

theorem resolution_order_witness :
    get_current_user hubA dbA { reqBearer with cookies := [("jhub", "zzz")] } =
      (some aliceU, []) ∧
    get_current_user hubA dbA reqAnon = get_current_user_cookie hubA dbA reqAnon ∧
    (get_current_user hubA dbA reqAnon).1 = none :=
  ⟨(resolution_order hubA dbA reqBearer).1 "at1" (TokenRow.mk "at1" "alice") aliceU
      (by decide) (by decide) (by decide) [("jhub", "zzz")],
    (resolution_order hubA dbA reqAnon).2.1 (by decide),
    (resolution_order hubA dbA reqAnon).2.2 (by decide) (by decide)⟩

/-- C5: a request whose Hub cookie value matches no stored CookieToken (with
no valid bearer token) has the Hub cookie cleared, scoped to the Hub server's
base_url, and resolves to anonymous. -/
theorem invalid_cookie_cleared (hub : Hub) (db : DB) (req : Request) (v : String)
    (hbearer : get_current_user_token db req = none)
    (hcookie : req.getCookie hub.server.cookie_name = some v)
    (hne : v ≠ "")
    (hmiss : db.cookie_tokens.find? (fun r => r.token == v) = none) :
    get_current_user hub db req =
      (none, [Event.clearCookie hub.server.cookie_name hub.server.base_url]) := by
  simp [get_current_user, hbearer, get_current_user_cookie, hcookie, hmiss, hne]

theorem invalid_cookie_cleared_witness :
    get_current_user hubA dbA reqBadCookie =
      (none, [Event.clearCookie hubA.server.cookie_name hubA.server.base_url]) :=
  invalid_cookie_cleared hubA dbA reqBadCookie "zzz"
    (by decide) (by decide) (by decide) (by decide)

/-- C8: the authorizations endpoint, given a valid bearer API token, leaves
the store unchanged, answers 404 exactly when no CookieToken has the requested
value, and answers the owner's name exactly when one does. -/
theorem authorizations_lookup (db : DB) (req : Request) (token : String)
    (hauth : (get_current_user_token db req).isSome = true) :
    (authorizations_endpoint db req token).1 = db ∧
    ((authorizations_endpoint db req token).2 = ApiOutcome.httpError 404 ↔
      db.cookie_tokens.find? (fun r => r.token == token) = none) ∧
    (∀ u, (authorizations_endpoint db req token).2 = ApiOutcome.ok u ↔
      (db.cookie_tokens.find? (fun r => r.token == token)).map TokenRow.userName =
        some u) := by
  obtain ⟨w, hw⟩ := Option.isSome_iff_exists.mp hauth
  cases hfind : db.cookie_tokens.find? (fun r => r.token == token) <;>
    simp [authorizations_endpoint, authorizations_get, hw, hfind]

theorem authorizations_lookup_witness :
    ((authorizations_endpoint dbA reqBearer "ct1").1 = dbA ∧
      ((authorizations_endpoint dbA reqBearer "ct1").2 = ApiOutcome.httpError 404 ↔
        dbA.cookie_tokens.find? (fun r => r.token == "ct1") = none) ∧
      (∀ u, (authorizations_endpoint dbA reqBearer "ct1").2 = ApiOutcome.ok u ↔
        (dbA.cookie_tokens.find? (fun r => r.token == "ct1")).map TokenRow.userName =
          some u)) ∧
    ((authorizations_endpoint dbA reqBearer "nope").2 = ApiOutcome.httpError 404 ↔
      dbA.cookie_tokens.find? (fun r => r.token == "nope") = none) :=
  ⟨authorizations_lookup dbA reqBearer "ct1" (by decide),
    (authorizations_lookup dbA reqBearer "nope" (by decide)).2.1⟩

theorem spawn_failure_leaves_state_witness :
    ∃ db1 u1 ev, spawn_single_user envFail dbB bobU = Except.error (db1, u1, ev) ∧
      db1.servers = dbB.servers ++ [newServer envFail dbB bobU] ∧
      db1.api_tokens = dbB.api_tokens ++
        [TokenRow.mk (mintToken dbB.nextTokenId) bobU.name] ∧
      u1.server = some (newServer envFail dbB bobU) ∧
      (∃ sp, u1.spawner = some sp ∧ sp.api_token = mintToken dbB.nextTokenId) ∧
      firstIdx isStop ev = none ∧
      firstIdx isStart ev = some 2 :=
  spawn_failure_leaves_state envFail dbB bobU rfl

/-- C10: an Authorization header that does not have the exact shape
token-whitespace-token never binds the request via the bearer path, and
resolution falls through to the Hub-cookie step exactly as if no valid header
were present. -/
theorem malformed_header_falls_through (hub : Hub) (db : DB) (req : Request)
    (h : String)
    (hh : req.authorization = some h)
    (hshape : ¬ ∃ ws tk : List Char, h.toList = "token".toList ++ ws ++ tk ∧
      ws ≠ [] ∧ (∀ c ∈ ws, isPySpace c = true) ∧
      tk ≠ [] ∧ (∀ c ∈ tk, isPySpace c = false)) :
    get_current_user_token db req = none ∧
    get_current_user hub db req = get_current_user_cookie hub db req := by
  have hnone : auth_header_match h = none := by
    cases e : auth_header_match h with
    | none => rfl
    | some t => exact absurd (auth_header_match_shape h t e) hshape
  constructor
  · simp [get_current_user_token, hh, hnone]
  · have h2 : get_current_user_token db req = none := by
      simp [get_current_user_token, hh, hnone]
    simp [get_current_user, h2]

/-- C7: a /user/name request whose resolved user is absent or differs from
name clears the login cookies (including the Hub cookie), issues a 302
redirect to login_url with next set to the original request path as the last
observable action, never calls into the Spawner, and leaves the store
untouched. -/
theorem mismatch_clears_and_redirects (env : HandlerEnv) (db : DB)
    (req : Request) (name : String)
    (h : (get_current_user env.hub db req).1 = none ∨
      ∃ u, (get_current_user env.hub db req).1 = some u ∧ u.name ≠ name) :
    ∃ ev, user_spawn_get env db req name =
        Except.ok (db, (get_current_user env.hub db req).1, ev) ∧
      countKind isSpawnerCall ev = 0 ∧
      Event.clearCookie env.hub.server.cookie_name env.hub.server.base_url ∈ ev ∧
      ev.getLast? =
        some (Event.redirect (url_concat env.login_url "next" req.path) 302) := by
  have hcnt : countKind isSpawnerCall
      ((get_current_user env.hub db req).2 ++ clear_login_cookie env.hub db req ++
        [Event.redirect (url_concat env.login_url "next" req.path) 302]) = 0 := by
    rw [countKind_append, countKind_append,
      countKind_zero_of_cookie isSpawnerCall cookie_not_spawner _
        (gcu_cookie_only env.hub db req),
      countKind_zero_of_cookie isSpawnerCall cookie_not_spawner _
        (clc_cookie_only env.hub db req)]
    rfl
  have hmem : Event.clearCookie env.hub.server.cookie_name env.hub.server.base_url ∈
      (get_current_user env.hub db req).2 ++ clear_login_cookie env.hub db req ++
        [Event.redirect (url_concat env.login_url "next" req.path) 302] :=
    List.mem_append.mpr (Or.inl (List.mem_append.mpr
      (Or.inr (clc_mem_hub_clear env.hub db req))))
  have hlast : ((get_current_user env.hub db req).2 ++
      clear_login_cookie env.hub db req ++
      [Event.redirect (url_concat env.login_url "next" req.path) 302]).getLast? =
      some (Event.redirect (url_concat env.login_url "next" req.path) 302) :=
    List.getLast?_concat _
  refine ⟨(get_current_user env.hub db req).2 ++ clear_login_cookie env.hub db req ++
      [Event.redirect (url_concat env.login_url "next" req.path) 302],
    ?_, hcnt, hmem, hlast⟩
  rcases h with hn | ⟨u, hu, hne⟩
  · simp [user_spawn_get, hn]
  · simp [user_spawn_get, hu, hne]

theorem mismatch_clears_and_redirects_witness :
    ∃ ev, user_spawn_get envA dbA reqBearer "bob" =
        Except.ok (dbA, (get_current_user envA.hub dbA reqBearer).1, ev) ∧
      countKind isSpawnerCall ev = 0 ∧
      Event.clearCookie envA.hub.server.cookie_name envA.hub.server.base_url ∈ ev ∧
      ev.getLast? =
        some (Event.redirect (url_concat envA.login_url "next" reqBearer.path) 302) :=
  mismatch_clears_and_redirects envA dbA reqBearer "bob"
    (Or.inr ⟨aliceU, by decide, by decide⟩)

/-- C6: a /user/name request by the matching user whose attached spawner
reports a non-absent exit status triggers a fresh spawn: spawner.start runs
exactly once more, the user object ends up with a brand-new Server record
(fresh id, distinct from the old row) and a spawner holding a freshly minted
APIToken committed next to the old ones, and the stale Server row is not
deleted from the Store. -/
theorem respawn_on_dead_process (env : HandlerEnv) (db : DB) (req : Request)
    (name : String) (user : User) (sp : Spawner) (oldSrv : Server) (st : Nat)
    (hres : (get_current_user env.hub db req).1 = some user)
    (hname : user.name = name)
    (hsp : user.spawner = some sp)
    (hpoll : sp.pollResult = some st)
    (hstart : env.startOk = true)
    (_hold : user.server = some oldSrv)
    (holdmem : oldSrv ∈ db.servers)
    (hsid : oldSrv.sid ≠ db.nextId)
    (hfresh : mintToken db.nextTokenId ∉ db.api_tokens.map TokenRow.token) :
    ∃ db1 u1 ev, user_spawn_get env db req name = Except.ok (db1, some u1, ev) ∧
      countKind isStart ev = 1 ∧
      u1.server = some (startedServer env db user) ∧
      (startedServer env db user).sid = db.nextId ∧
      oldSrv.sid ≠ (startedServer env db user).sid ∧
      (∃ nsp, u1.spawner = some nsp ∧ nsp.api_token = mintToken db.nextTokenId ∧
        nsp.api_token ∉ db.api_tokens.map TokenRow.token) ∧
      db1.api_tokens = db.api_tokens ++
        [TokenRow.mk (mintToken db.nextTokenId) user.name] ∧
      oldSrv ∈ db1.servers := by
  simp only [user_spawn_get, hres]
  rw [if_pos hname]
  simp only [hsp, hpoll, spawn_single_user_ok env db user hstart]
  refine ⟨_, _, _, rfl, ?_, ?_, ?_, ?_, ?_, ?_, ?_⟩
  · rw [countKind_append, countKind_append, countKind_append, countKind_append,
      countKind_zero_of_cookie isStart cookie_not_start _
        (gcu_cookie_only env.hub db req),
      countKind_zero_of_cookie isStart cookie_not_start _
        (slc_cookie_only env.hub (spawnedDB env db user) req (spawnedUser env db user))]
    simp [spawnedTrace, countKind, isStart]
  · rfl
  · rfl
  · simp only [startedServer, newServer]
    exact hsid
  · exact ⟨_, rfl, rfl, hfresh⟩
  · rw [slc_api_tokens]
    rfl
  · rw [slc_servers]
    simp only [spawnedDB]
    refine List.mem_map.mpr ⟨oldSrv, List.mem_append_left _ holdmem, ?_⟩
    rw [if_neg hsid]

theorem respawn_on_dead_process_witness :
    ∃ db1 u1 ev, user_spawn_get envA dbA reqBearer "alice" =
        Except.ok (db1, some u1, ev) ∧
      countKind isStart ev = 1 ∧
      u1.server = some (startedServer envA dbA aliceU) ∧
      (startedServer envA dbA aliceU).sid = dbA.nextId ∧
      aliceSrv.sid ≠ (startedServer envA dbA aliceU).sid ∧
      (∃ nsp, u1.spawner = some nsp ∧ nsp.api_token = mintToken dbA.nextTokenId ∧
        nsp.api_token ∉ dbA.api_tokens.map TokenRow.token) ∧
      db1.api_tokens = dbA.api_tokens ++
        [TokenRow.mk (mintToken dbA.nextTokenId) aliceU.name] ∧
      aliceSrv ∈ db1.servers :=
  respawn_on_dead_process envA dbA reqBearer "alice" aliceU aliceSp aliceSrv 1
    (by decide) rfl rfl rfl rfl rfl (by decide) (by decide) (by decide)

theorem malformed_header_falls_through_witness :
    get_current_user_token dbA reqBadHeader = none ∧
    get_current_user hubA dbA reqBadHeader =
      get_current_user_cookie hubA dbA reqBadHeader :=
  malformed_header_falls_through hubA dbA reqBadHeader "Bearer at1" rfl (by
    intro hs
    obtain ⟨ws, tk, hdec, hws, hwsp, htk, htkp⟩ := hs
    have hm := auth_header_match_of_shape "Bearer at1" ws tk hdec hws hwsp htk htkp
    have hn : auth_header_match "Bearer at1" = none := by decide
    rw [hn] at hm
    exact Option.noConfusion hm)

end JupyterHub
